import Mathlib

/-!
ChatApp (src/App.jsx): connection lifecycle and message reducer.

A shallow embedding of the stateful part of the `ChatApp` component:
the React state cells, the three refs, the WebSocket objects the
component has created (with the handlers installed on them) and the
timers it has scheduled.  Every handler is a pure function on `ChatState`.

Closures.  `connectWebSocket` is a `useCallback` over
`[isJoined, username, room]`; the handlers it installs on a socket and the
timer callback it schedules read `isJoined`, `username` and `room` from the
closure of the call that created them, not from the current state cells.
The captured values are carried explicitly as an `Env`.  `joinChat`,
`sendMessage` and `leaveChat` are invoked by the rendering layer and read the
values of the current render, i.e. the state cells.

Browser facts used (WebSocket interface): `send` raises `InvalidStateError`
exactly when `readyState` is `CONNECTING`, and silently discards the data
when it is `CLOSING` or `CLOSED`; `close(1000, reason)` never raises and
moves an `OPEN` or `CONNECTING` socket to `CLOSING`; the `open` event is
delivered with `readyState = OPEN` and the `close` event with
`readyState = CLOSED`.
-/

namespace ChatApp

/-! ## JavaScript values -/

/-- A JavaScript value as produced by `JSON.parse` or by a property read.
Numbers are restricted to the integers that a double holds exactly (magnitude
below 2 ^ 53), which ToString prints in plain decimal; an object lists each of
its keys once. -/
inductive JVal where
  | undefined
  | null
  | bool (b : Bool)
  | num (n : Int)
  | str (s : String)
  | arr (items : List JVal)
  | obj (fields : List (String × JVal))

/-- ToBoolean: the truthiness test behind `&&`, `||`, `!` and `if`. -/
def JVal.truthy : JVal → Bool
  | .undefined => false
  | .null => false
  | .bool b => b
  | .num n => n != 0
  | .str s => s != ""
  | .arr _ => true
  | .obj _ => true

/-- Property read `data.key`; `none` is the `TypeError` raised on `null` and
`undefined`.  A missing property, and any of the property names used by the
component on a primitive or an array, reads as `undefined`. -/
def JVal.prop (data : JVal) (key : String) : Option JVal :=
  match data with
  | .undefined => none
  | .null => none
  | .obj fields => some ((fields.lookup key).getD .undefined)
  | _ => some .undefined

/-- Strict equality `v === s` against a string. -/
def JVal.strictEqStr (v : JVal) (s : String) : Bool :=
  match v with
  | .str t => t == s
  | _ => false

mutual
/-- ToString, as applied by a template literal. -/
def JVal.toJSString : JVal → String
  | .undefined => "undefined"
  | .null => "null"
  | .bool b => if b then "true" else "false"
  | .num n => toString n
  | .str s => s
  | .arr items => JVal.joinItems items
  | .obj _ => "[object Object]"
/-- The comma-separated join that ToString uses for an array:
`null` and `undefined` elements contribute the empty string. -/
def JVal.joinItems : List JVal → String
  | [] => ""
  | [.undefined] => ""
  | [.null] => ""
  | [v] => JVal.toJSString v
  | .undefined :: rest => "," ++ JVal.joinItems rest
  | .null :: rest => "," ++ JVal.joinItems rest
  | v :: rest => JVal.toJSString v ++ "," ++ JVal.joinItems rest
end

/-- WhiteSpace and LineTerminator code points, the characters removed by
`String.prototype.trim`. -/
def isJSWhitespace (c : Char) : Bool :=
  let n := c.toNat
  n == 0x09 || n == 0x0A || n == 0x0B || n == 0x0C || n == 0x0D || n == 0x20 ||
  n == 0xA0 || n == 0x1680 || (0x2000 ≤ n && n ≤ 0x200A) || n == 0x2028 ||
  n == 0x2029 || n == 0x202F || n == 0x205F || n == 0x3000 || n == 0xFEFF

/-- The method `String.prototype.trim`. -/
def jsTrim (s : String) : String :=
  String.mk ((s.toList.dropWhile isJSWhitespace).reverse.dropWhile isJSWhitespace).reverse

/-! ## Data model -/

/-- The `id` of a message: a value taken from a frame, or the sum
`Date.now() + Math.random()` kept symbolically. -/
inductive MsgId where
  | value (v : JVal)
  | clockPlusRandom (now : Int) (rnd : Nat)

/-- An element of the `messages` array.  `isOwn`, `isSystem` and `type` are
`none` when the object literal has no such key. -/
structure DisplayMessage where
  id : MsgId
  username : JVal
  message : JVal
  timestamp : JVal
  isOwn : Option Bool := none
  isSystem : Option Bool := none
  room : JVal := .undefined
  type : Option String := none

/-- The rendering test `msg.isSystem ? ... : ...`. -/
def DisplayMessage.systemStyled (m : DisplayMessage) : Bool :=
  m.isSystem == some true

/-- An object handed to `JSON.stringify` and `send`. -/
structure Envelope where
  type : String
  id : Option MsgId := none
  username : String
  message : Option String := none
  room : String
  timestamp : Int

/-- The values of `isJoined`, `username`, `room` captured by one call of
`connectWebSocket`. -/
structure Env where
  isJoined : Bool
  username : String
  room : String

inductive ReadyState where
  | CONNECTING
  | OPEN
  | CLOSING
  | CLOSED
  deriving DecidableEq

/-- A WebSocket object created by the component: its `readyState`, the
closure of its handlers, and the envelopes accepted by `send`. -/
structure Socket where
  readyState : ReadyState
  env : Env
  sent : List Envelope

/-- A `setTimeout` registration made by `ws.onclose`. -/
structure Timer where
  delay : Nat
  env : Env
  pending : Bool

/-- The readings of `Date.now()` and `Math.random()` inside one handler run,
and whether `new WebSocket(...)` raises. -/
structure Ambient where
  now : Int
  later : Int
  rnd : Nat
  ctorThrows : Bool

/-- State cells (`useState`), refs (`useRef`), and the sockets and timers
created so far; a socket or timer handle is its index in the table. -/
structure ChatState where
  messages : List DisplayMessage
  inputMessage : String
  username : String
  isConnected : Bool
  isJoined : Bool
  onlineUsers : JVal
  isConnecting : Bool
  connectionError : JVal
  room : String
  sockets : List Socket
  wsRef : Option Nat
  timers : List Timer
  reconnectTimeoutRef : Option Nat
  reconnectAttempts : Nat

/-- The state of a freshly mounted component. -/
def ChatState.init : ChatState where
  messages := []
  inputMessage := ""
  username := ""
  isConnected := false
  isJoined := false
  onlineUsers := .arr []
  isConnecting := false
  connectionError := .str ""
  room := "general"
  sockets := []
  wsRef := none
  timers := []
  reconnectTimeoutRef := none
  reconnectAttempts := 0

def maxReconnectAttempts : Nat := 5

/-! ## The WebSocket interface -/

/-- The test `wsRef.current?.readyState === WebSocket.OPEN`. -/
def wsRefIsOpen (s : ChatState) : Bool :=
  match s.wsRef with
  | none => false
  | some i =>
    match s.sockets[i]? with
    | some k => k.readyState == .OPEN
    | none => false

/-- The call `ws.send(JSON.stringify(e))` on socket `i`; `none` is the
`InvalidStateError` raised while the socket is `CONNECTING`. -/
def wsSend (i : Nat) (e : Envelope) (socks : List Socket) : Option (List Socket) :=
  match socks[i]? with
  | none => some socks
  | some k =>
    match k.readyState with
    | .CONNECTING => none
    | .OPEN => some (socks.set i { k with sent := k.sent ++ [e] })
    | .CLOSING => some socks
    | .CLOSED => some socks

/-- The call `ws.close(1000, reason)` on socket `i`. -/
def wsClose (i : Nat) (socks : List Socket) : List Socket :=
  match socks[i]? with
  | none => socks
  | some k =>
    match k.readyState with
    | .CONNECTING => socks.set i { k with readyState := .CLOSING }
    | .OPEN => socks.set i { k with readyState := .CLOSING }
    | .CLOSING => socks
    | .CLOSED => socks

/-- Whether `wsRef.current.send(...)` raises in state `s`. -/
def sendThrows (s : ChatState) : Bool :=
  match s.wsRef with
  | none => false
  | some i =>
    match s.sockets[i]? with
    | some k => k.readyState == .CONNECTING
    | none => false

/-- The browser moving socket `i` to a new `readyState` before it delivers
an event. -/
def setReadyState (i : Nat) (r : ReadyState) (socks : List Socket) : List Socket :=
  match socks[i]? with
  | none => socks
  | some k => socks.set i { k with readyState := r }

/-! ## connectWebSocket and the handlers it installs -/

/-- The handler `ws.onopen` of socket `i`. -/
def onopen (env : Env) (i : Nat) (amb : Ambient) (s : ChatState) : ChatState :=
  let s1 := { s with
    isConnected := true
    isConnecting := false
    connectionError := .str ""
    reconnectAttempts := 0 }
  if env.isJoined && env.username != "" then
    let joinMessage : Envelope :=
      { type := "join", username := env.username, room := env.room, timestamp := amb.now }
    { s1 with sockets := (wsSend i joinMessage s1.sockets).getD s1.sockets }
  else s1

/-- The body of the `try` block of `ws.onmessage` after `JSON.parse`
returned `data`; `none` is a raised `TypeError`. -/
def onmessageBody (env : Env) (amb : Ambient) (data : JVal) (s : ChatState) :
    Option ChatState := do
  let type ← data.prop "type"
  let username ← data.prop "username"
  let message ← data.prop "message"
  let timestamp ← data.prop "timestamp"
  let fresh := MsgId.clockPlusRandom amb.now amb.rnd
  match type with
  | .str "message" =>
    let id ← data.prop "id"
    let room ← data.prop "room"
    some { s with messages := s.messages ++ [{
      id := if id.truthy then .value id else fresh
      username := username
      message := message
      timestamp := timestamp
      isOwn := some (username.strictEqStr env.username)
      room := room }] }
  | .str "join" =>
    if !(username.strictEqStr env.username) then
      some { s with messages := s.messages ++ [{
        id := fresh
        username := .str "System"
        message := .str (username.toJSString ++ " joined the chat")
        timestamp := timestamp
        isSystem := some true }] }
    else some s
  | .str "leave" =>
    some { s with messages := s.messages ++ [{
      id := fresh
      username := .str "System"
      message := .str (username.toJSString ++ " left the chat")
      timestamp := timestamp
      isSystem := some true }] }
  | .str "user_list" =>
    let users ← data.prop "users"
    some { s with onlineUsers := if users.truthy then users else .arr [] }
  | .str "error" =>
    some { s with connectionError := message }
  | _ =>
    if username.truthy && message.truthy && !(username.strictEqStr env.username) then
      some { s with messages := s.messages ++ [{
        id := fresh
        username := username
        message := message
        timestamp := timestamp
        isOwn := some false }] }
    else some s

/-- The handler `ws.onmessage`.  `parsed` is the result of
`JSON.parse(event.data)`, `none` when it raises; every exception is caught
and logged. -/
def onmessage (env : Env) (amb : Ambient) (parsed : Option JVal) (s : ChatState) :
    ChatState :=
  match parsed with
  | none => s
  | some data => (onmessageBody env amb data s).getD s

/-- The delay `Math.min(1000 * Math.pow(2, reconnectAttempts.current), 10000)`. -/
def reconnectDelay (attempts : Nat) : Nat :=
  min (1000 * 2 ^ attempts) 10000

/-- The handler `ws.onclose`, called with `event.code`. -/
def onclose (env : Env) (code : Nat) (s : ChatState) : ChatState :=
  let s1 := { s with isConnected := false, isConnecting := false }
  if code != 1000 && env.isJoined && decide (s1.reconnectAttempts < maxReconnectAttempts) then
    let delay := reconnectDelay s1.reconnectAttempts
    { s1 with
      connectionError :=
        .str ("Connection lost. Reconnecting in " ++ toString (delay / 1000) ++ "s...")
      timers := s1.timers ++ [{ delay := delay, env := env, pending := true }]
      reconnectTimeoutRef := some s1.timers.length }
  else
    { s1 with connectionError := .str "Connection closed" }

/-- The handler `ws.onerror`. -/
def onerror (s : ChatState) : ChatState :=
  { s with isConnecting := false, connectionError := .str "Connection failed" }

/-- The callback `connectWebSocket` with the closure `env`. -/
def connectWebSocket (env : Env) (amb : Ambient) (s : ChatState) : ChatState :=
  if wsRefIsOpen s then s
  else
    let s1 := { s with isConnecting := true, connectionError := .str "" }
    if amb.ctorThrows then
      { s1 with isConnecting := false, connectionError := .str "Failed to connect" }
    else
      { s1 with
        sockets := s1.sockets ++ [{ readyState := .CONNECTING, env := env, sent := [] }]
        wsRef := some s1.sockets.length }

/-- The callback given to `setTimeout` by `ws.onclose`. -/
def reconnectCallback (env : Env) (amb : Ambient) (s : ChatState) : ChatState :=
  connectWebSocket env amb { s with reconnectAttempts := s.reconnectAttempts + 1 }

/-! ## Callbacks invoked by the rendering layer -/

/-- The callback `joinChat`.  `connectWebSocket` is the callback of the
render in which `joinChat` was created, so its closure holds the state cells
as they are before `setIsJoined(true)` takes effect. -/
def joinChat (amb : Ambient) (s : ChatState) : ChatState :=
  if jsTrim s.username == "" then s
  else
    let env : Env := { isJoined := s.isJoined, username := s.username, room := s.room }
    let s1 := connectWebSocket env amb { s with isJoined := true }
    { s1 with messages := [{
        id := .value (.num amb.now)
        username := .str "System"
        message := .str ("Welcome to the chat, " ++ s.username ++ "! Connecting via WebSocket...")
        timestamp := .num amb.later
        isSystem := some true }] }

/-- The callback `sendMessage`. -/
def sendMessage (amb : Ambient) (s : ChatState) : ChatState :=
  if jsTrim s.inputMessage == "" || !s.isConnected then s
  else
    match s.wsRef with
    | none => s
    | some i =>
      let id := MsgId.clockPlusRandom amb.now amb.rnd
      let text := jsTrim s.inputMessage
      let messageData : Envelope :=
        { type := "message", id := some id, username := s.username, message := some text,
          room := s.room, timestamp := amb.later }
      match wsSend i messageData s.sockets with
      | some socks =>
        { s with
          sockets := socks
          messages := s.messages ++ [{
            id := id
            username := .str s.username
            message := .str text
            timestamp := .num amb.later
            isOwn := some true
            room := .str s.room
            type := some "message" }]
          inputMessage := "" }
      | none => { s with connectionError := .str "Failed to send message" }

/-- The first `if` of `leaveChat`: the `leave` envelope is sent on the current
socket, which is then closed with code 1000; `none` is the exception raised by
`send`. -/
def leaveChatTransport (amb : Ambient) (s : ChatState) : Option (List Socket) :=
  match s.wsRef with
  | some i =>
    if s.isConnected then
      let leaveMessage : Envelope :=
        { type := "leave", username := s.username, room := s.room, timestamp := amb.now }
      (wsSend i leaveMessage s.sockets).map (wsClose i)
    else some s.sockets
  | none => some s.sockets

/-- The second `if` of `leaveChat`: `clearTimeout(reconnectTimeoutRef.current)`. -/
def leaveChatTimers (s : ChatState) : List Timer :=
  match s.reconnectTimeoutRef with
  | some t =>
    match s.timers[t]? with
    | some tm => s.timers.set t { tm with pending := false }
    | none => s.timers
  | none => s.timers

/-- The callback `leaveChat`; `none` is the exception that escapes when
`wsRef.current.send` raises, in which case no update has been made. -/
def leaveChat (amb : Ambient) (s : ChatState) : Option ChatState :=
  match leaveChatTransport amb s with
  | none => none
  | some socks =>
    some { s with
      sockets := socks
      timers := leaveChatTimers s
      isJoined := false
      isConnected := false
      messages := []
      onlineUsers := .arr []
      connectionError := .str ""
      reconnectAttempts := 0 }

/-! ## Events -/

/-- What the component reacts to: a notification of socket `sock`, a
scheduled timer coming due, or a call from the rendering layer. -/
inductive Event where
  | wsOpen (sock : Nat)
  | wsMessage (sock : Nat) (parsed : Option JVal)
  | wsClose (sock : Nat) (code : Nat)
  | wsError (sock : Nat)
  | timerFire (id : Nat)
  | setUsername (value : String)
  | setInputMessage (value : String)
  | setRoom (value : String)
  | joinChat
  | sendMessage
  | leaveChat

/-- One reaction, run to completion.  A notification for a handle that was
never created, and a timer that is not pending, do nothing. -/
def step (amb : Ambient) (ev : Event) (s : ChatState) : ChatState :=
  match ev with
  | .wsOpen i =>
    match s.sockets[i]? with
    | some k => onopen k.env i amb { s with sockets := setReadyState i .OPEN s.sockets }
    | none => s
  | .wsMessage i parsed =>
    match s.sockets[i]? with
    | some k => onmessage k.env amb parsed s
    | none => s
  | .wsClose i code =>
    match s.sockets[i]? with
    | some k => onclose k.env code { s with sockets := setReadyState i .CLOSED s.sockets }
    | none => s
  | .wsError i =>
    match s.sockets[i]? with
    | some _ => onerror s
    | none => s
  | .timerFire t =>
    match s.timers[t]? with
    | some tm =>
      if tm.pending then
        reconnectCallback tm.env amb
          { s with timers := s.timers.set t { tm with pending := false } }
      else s
    | none => s
  | .setUsername v => { s with username := v }
  | .setInputMessage v => { s with inputMessage := v }
  | .setRoom v => { s with room := v }
  | .joinChat => joinChat amb s
  | .sendMessage => sendMessage amb s
  | .leaveChat => (leaveChat amb s).getD s

/-- A run: the events are processed one after the other. -/
def run (amb : Ambient) (evs : List Event) (s : ChatState) : ChatState :=
  evs.foldl (fun acc ev => step amb ev acc) s

/-! ## Vocabulary of the statements -/

/-- The value read by `data.key` inside the `try` block, `undefined` when the
read raises. -/
def JVal.field (data : JVal) (key : String) : JVal :=
  (data.prop key).getD .undefined

/-- Whether `data.type` is one of the five `case` labels of the `switch`. -/
def recognizedType (data : JVal) : Bool :=
  match data.prop "type" with
  | some (.str t) =>
    t == "message" || t == "join" || t == "leave" || t == "user_list" || t == "error"
  | _ => false

/-- One abnormal close of the current socket, followed by the timer that the
close handler registered coming due. -/
def closeThenFire (amb : Ambient) (code : Nat) (s : ChatState) : ChatState :=
  match s.wsRef with
  | none => s
  | some i =>
    let s1 := step amb (.wsClose i code) s
    match s1.reconnectTimeoutRef with
    | some t => step amb (.timerFire t) s1
    | none => s1

/-- A run of `closeThenFire`, one for each close code. -/
def reconnectRun (amb : Ambient) (codes : List Nat) (s : ChatState) : ChatState :=
  codes.foldl (fun acc code => closeThenFire amb code acc) s

/-- The current socket exists, the closure of its handlers holds
`isJoined = true`, and the attempt counter is `n`. -/
def Retrying (n : Nat) (s : ChatState) : Prop :=
  ∃ i k, s.wsRef = some i ∧ s.sockets[i]? = some k ∧ k.env.isJoined = true ∧
    s.reconnectAttempts = n

/-- A reading of the clock and the random source fixed for the examples. -/
def clock0 : Ambient := { now := 1000, later := 1001, rnd := 7, ctorThrows := false }

/-- A frame `{"type":"message","username":"bob","message":"hi","timestamp":1000}`,
parsed. -/
def bobSaysHi : JVal :=
  .obj [("type", .str "message"), ("username", .str "bob"), ("message", .str "hi"),
    ("timestamp", .num 1000)]

/-- A frame `{"username":"bob","message":""}`, parsed: both fields are
present, the message is the empty string. -/
def bobSaysNothing : JVal :=
  .obj [("username", .str "bob"), ("message", .str "")]

/-- The user typed "alice" and pressed Join; the socket has not opened yet. -/
def connectingSession : ChatState :=
  run clock0 [.setUsername "alice", .joinChat] ChatState.init

/-- The session of `connectingSession` once its socket has opened. -/
def joinedSession : ChatState :=
  step clock0 (.wsOpen 0) connectingSession

/-- The session of `joinedSession` after the frame `bobSaysHi` arrived. -/
def chattingSession : ChatState :=
  step clock0 (.wsMessage 0 (some bobSaysHi)) joinedSession

/-- The user joined, left before the socket opened, and joined again; then
the first socket opened and two `message` frames arrived on it while the
second socket is still connecting. -/
def rejoinedSession : ChatState :=
  run clock0
    [.setUsername "alice", .joinChat, .leaveChat, .joinChat, .wsOpen 0,
      .wsMessage 0 (some bobSaysHi), .wsMessage 0 (some bobSaysHi), .setInputMessage "hello"]
    ChatState.init

/-- The user joined and left before the socket opened; the socket then
opened and two `message` frames arrived on it. -/
def leftSession : ChatState :=
  run clock0
    [.setUsername "alice", .joinChat, .leaveChat, .wsOpen 0,
      .wsMessage 0 (some bobSaysHi), .wsMessage 0 (some bobSaysHi)]
    ChatState.init

/-! ## Auxiliary facts -/

theorem jsTrim_of_all_whitespace (t : String)
    (h : ∀ c ∈ t.toList, isJSWhitespace c = true) : jsTrim t = "" := by
  have h1 : t.toList.dropWhile isJSWhitespace = [] := by
    rw [List.dropWhile_eq_nil_iff]
    exact h
  unfold jsTrim
  rw [h1]
  rfl

theorem strictEqStr_eq_true_iff (v : JVal) (u : String) :
    v.strictEqStr u = true ↔ v = .str u := by
  cases v <;> simp [JVal.strictEqStr]

theorem strictEqStr_eq_false_iff (v : JVal) (u : String) :
    v.strictEqStr u = false ↔ v ≠ .str u := by
  cases v <;> simp [JVal.strictEqStr]

/-- When one property read succeeds, `data` is neither `null` nor
`undefined`, so every property read succeeds. -/
theorem prop_eq_some_field {data : JVal} {key : String} {v : JVal}
    (h : data.prop key = some v) (key2 : String) :
    data.prop key2 = some (data.field key2) := by
  cases data <;> simp_all [JVal.prop, JVal.field]

theorem prop_eq_none_field {data : JVal} {key : String}
    (h : data.prop key = none) (key2 : String) :
    data.prop key2 = none ∧ data.field key2 = .undefined := by
  cases data <;> simp_all [JVal.prop, JVal.field]

/-- The `case "message"` branch. -/
theorem onmessageBody_message (env : Env) (amb : Ambient) (data : JVal) (s : ChatState)
    (h : data.prop "type" = some (.str "message")) :
    onmessageBody env amb data s = some { s with messages := s.messages ++ [{
      id := if (data.field "id").truthy then .value (data.field "id")
            else .clockPlusRandom amb.now amb.rnd
      username := data.field "username"
      message := data.field "message"
      timestamp := data.field "timestamp"
      isOwn := some ((data.field "username").strictEqStr env.username)
      room := data.field "room" }] } := by
  unfold onmessageBody
  rw [h, prop_eq_some_field h "username", prop_eq_some_field h "message",
    prop_eq_some_field h "timestamp", prop_eq_some_field h "id", prop_eq_some_field h "room"]
  rfl

/-- The `default` branch. -/
theorem onmessageBody_unrecognized (env : Env) (amb : Ambient) (data : JVal) (s : ChatState)
    (ty : JVal) (hty : data.prop "type" = some ty) (h : recognizedType data = false) :
    onmessageBody env amb data s =
      if (data.field "username").truthy && (data.field "message").truthy &&
          !((data.field "username").strictEqStr env.username) then
        some { s with messages := s.messages ++ [{
          id := .clockPlusRandom amb.now amb.rnd
          username := data.field "username"
          message := data.field "message"
          timestamp := data.field "timestamp"
          isOwn := some false }] }
      else some s := by
  unfold onmessageBody
  rw [hty, prop_eq_some_field hty "username", prop_eq_some_field hty "message",
    prop_eq_some_field hty "timestamp"]
  simp only [recognizedType, hty] at h
  simp only [Option.bind_eq_bind, Option.some_bind]
  split
  · simp at h
  · simp at h
  · simp at h
  · simp at h
  · simp at h
  · rfl

/-- The handler `ws.onmessage` only ever appends to `messages`. -/
theorem onmessage_messages_prefix (env : Env) (amb : Ambient) (parsed : Option JVal)
    (s : ChatState) : s.messages <+: (onmessage env amb parsed s).messages := by
  cases parsed with
  | none => exact List.prefix_refl _
  | some data =>
    cases hty : data.prop "type" with
    | none =>
      have hb : onmessageBody env amb data s = none := by
        unfold onmessageBody
        rw [hty]
        rfl
      simp [onmessage, hb]
    | some ty =>
      show s.messages <+: ((onmessageBody env amb data s).getD s).messages
      unfold onmessageBody
      rw [hty, prop_eq_some_field hty "username", prop_eq_some_field hty "message",
        prop_eq_some_field hty "timestamp", prop_eq_some_field hty "id",
        prop_eq_some_field hty "room", prop_eq_some_field hty "users"]
      simp only [Option.bind_eq_bind, Option.some_bind]
      split
      · simp
      · split <;> simp
      · simp
      · simp
      · simp
      · split <;> simp

theorem onopen_messages (env : Env) (i : Nat) (amb : Ambient) (s : ChatState) :
    (onopen env i amb s).messages = s.messages := by
  unfold onopen
  split <;> rfl

theorem onclose_messages (env : Env) (code : Nat) (s : ChatState) :
    (onclose env code s).messages = s.messages := by
  unfold onclose
  dsimp only
  split <;> rfl

theorem connectWebSocket_messages (env : Env) (amb : Ambient) (s : ChatState) :
    (connectWebSocket env amb s).messages = s.messages := by
  unfold connectWebSocket
  split
  · rfl
  · split <;> rfl

theorem sendMessage_messages_prefix (amb : Ambient) (s : ChatState) :
    s.messages <+: (sendMessage amb s).messages := by
  unfold sendMessage
  split
  · exact List.prefix_refl _
  · split
    · exact List.prefix_refl _
    · dsimp only
      split
      · exact List.prefix_append _ _
      · exact List.prefix_refl _

/-- The callback `leaveChat` is aborted exactly when the session is connected
and `send` raises on the current socket. -/
theorem leaveChat_eq_none_iff (amb : Ambient) (s : ChatState) :
    leaveChat amb s = none ↔ (s.isConnected && sendThrows s) = true := by
  unfold leaveChat leaveChatTransport sendThrows wsSend
  cases hw : s.wsRef with
  | none => simp
  | some i =>
    cases hc : s.isConnected with
    | false => simp
    | true =>
      cases hk : s.sockets[i]? with
      | none => simp [hk]
      | some k =>
        cases hr : k.readyState <;> simp [hk, hr]

/-- What `leaveChat` does when it runs to its end: every cell it
assigns is reset, the timer held by `reconnectTimeoutRef` is no longer
pending, and `isConnecting` keeps its value. -/
theorem leaveChat_resets (amb : Ambient) (s t : ChatState) (h : leaveChat amb s = some t) :
    t.isJoined = false ∧ t.isConnected = false ∧ t.messages = [] ∧
      t.onlineUsers = .arr [] ∧ t.connectionError = .str "" ∧ t.reconnectAttempts = 0 ∧
      t.isConnecting = s.isConnecting ∧
      (∀ r tm, s.reconnectTimeoutRef = some r → t.timers[r]? = some tm → tm.pending = false) := by
  unfold leaveChat at h
  split at h
  · simp at h
  · simp only [Option.some.injEq] at h
    subst h
    refine ⟨rfl, rfl, rfl, rfl, rfl, rfl, rfl, ?_⟩
    intro r tm hr
    simp only [leaveChatTimers, hr]
    cases hget : s.timers[r]? with
    | none => simp [hget]
    | some tm0 =>
      have hlt : r < s.timers.length := by
        rcases List.getElem?_eq_some_iff.mp hget with ⟨hlt, -⟩
        exact hlt
      simp only [List.getElem?_set_self hlt, Option.some.injEq]
      intro h2
      rw [← h2]

/-! ## The reconnect cycle when the closure holds `isJoined = true` -/

theorem setReadyState_getElem? (i : Nat) (r : ReadyState) (socks : List Socket) (k : Socket)
    (hk : socks[i]? = some k) :
    (setReadyState i r socks)[i]? = some { k with readyState := r } ∧
      (setReadyState i r socks).length = socks.length := by
  have hlt : i < socks.length := (List.getElem?_eq_some_iff.mp hk).1
  simp [setReadyState, hk, List.getElem?_set_self hlt]

/-- One cycle: the close registers a timer, the timer increments the counter
and opens a new socket with the same closure. -/
theorem closeThenFire_retrying (amb : Ambient) (code n : Nat) (s : ChatState)
    (hr : Retrying n s) (hn : n < 5) (hcode : code ≠ 1000) (hctor : amb.ctorThrows = false) :
    Retrying (n + 1) (closeThenFire amb code s) ∧
      (closeThenFire amb code s).timers.length = s.timers.length + 1 ∧
      (closeThenFire amb code s).sockets.length = s.sockets.length + 1 ∧
      (closeThenFire amb code s).messages = s.messages := by
  obtain ⟨i, k, hw, hk, hj, hatt⟩ := hr
  subst hatt
  obtain ⟨hget, hlen⟩ := setReadyState_getElem? i .CLOSED s.sockets k hk
  have hclose : step amb (.wsClose i code) s =
      { s with
        sockets := setReadyState i .CLOSED s.sockets
        isConnected := false
        isConnecting := false
        connectionError := .str ("Connection lost. Reconnecting in " ++
          toString (reconnectDelay s.reconnectAttempts / 1000) ++ "s...")
        timers := s.timers ++
          [{ delay := reconnectDelay s.reconnectAttempts, env := k.env, pending := true }]
        reconnectTimeoutRef := some s.timers.length } := by
    simp [step, hk, onclose, hj, hcode, hn, maxReconnectAttempts]
  unfold closeThenFire
  rw [hw]
  simp only [hclose]
  simp only [step, List.getElem?_concat_length]
  simp [reconnectCallback, connectWebSocket, wsRefIsOpen, hw, hget, hctor, Retrying, hlen, hj]

theorem reconnectRun_retrying (amb : Ambient) (hctor : amb.ctorThrows = false)
    (codes : List Nat) :
    ∀ (n : Nat) (s : ChatState), Retrying n s → n + codes.length ≤ 5 →
      (∀ c ∈ codes, c ≠ 1000) →
      Retrying (n + codes.length) (reconnectRun amb codes s) ∧
        (reconnectRun amb codes s).timers.length = s.timers.length + codes.length ∧
        (reconnectRun amb codes s).messages = s.messages := by
  induction codes with
  | nil =>
    intro n s hr _ _
    exact ⟨hr, rfl, rfl⟩
  | cons c rest ih =>
    intro n s hr hlen hcodes
    simp only [List.length_cons] at hlen
    have hc : c ≠ 1000 := hcodes c (List.mem_cons_self _ _)
    obtain ⟨h1, h2, -, h4⟩ := closeThenFire_retrying amb c n s hr (by omega) hc hctor
    obtain ⟨g1, g2, g3⟩ := ih (n + 1) (closeThenFire amb c s) h1 (by omega)
      (fun d hd => hcodes d (List.mem_cons_of_mem _ hd))
    refine ⟨?_, ?_, ?_⟩
    · have he : n + (c :: rest).length = n + 1 + rest.length := by
        simp only [List.length_cons]
        omega
      rw [he]
      exact g1
    · show (reconnectRun amb rest (closeThenFire amb c s)).timers.length = _
      rw [g2, h2, List.length_cons]
      omega
    · show (reconnectRun amb rest (closeThenFire amb c s)).messages = _
      rw [g3, h4]

/-- When the handlers of the current socket hold `isJoined = true`: five
abnormal closes, each followed by its timer, register five timers and bring
the counter to 5; a sixth close registers none, leaves the session not
connected and sets `connectionError` to "Connection closed". -/
theorem reconnect_five_then_give_up (amb : Ambient) (hctor : amb.ctorThrows = false)
    (codes : List Nat) (last : Nat) (s : ChatState) (hr : Retrying 0 s)
    (hlen : codes.length = 5) (hcodes : ∀ c ∈ codes, c ≠ 1000) :
    (reconnectRun amb codes s).reconnectAttempts = 5 ∧
      (reconnectRun amb codes s).timers.length = s.timers.length + 5 ∧
      ∃ i, (reconnectRun amb codes s).wsRef = some i ∧
        (step amb (.wsClose i last) (reconnectRun amb codes s)).timers =
          (reconnectRun amb codes s).timers ∧
        (step amb (.wsClose i last) (reconnectRun amb codes s)).connectionError =
          .str "Connection closed" ∧
        (step amb (.wsClose i last) (reconnectRun amb codes s)).isConnected = false := by
  obtain ⟨h1, h2, -⟩ := reconnectRun_retrying amb hctor codes 0 s hr (by omega) hcodes
  rw [hlen] at h1 h2
  obtain ⟨i, k, hw, hk, hj, hatt⟩ := h1
  refine ⟨hatt, h2, i, hw, ?_, ?_, ?_⟩ <;>
    simp [step, hk, onclose, hatt, maxReconnectAttempts]

/-- A socket whose closure holds `isJoined = true` arises only from a
`connectWebSocket` called in a render that is already joined, as when
`joinChat` runs a second time. -/
theorem retrying_after_second_joinChat :
    Retrying 0 (run clock0 [.joinChat, .wsOpen 1] connectingSession) :=
  ⟨1, _, rfl, rfl, rfl, rfl⟩

/-! ## Reconnect policy of `ws.onclose` -/

/-- The retry branch of `ws.onclose` taken in isolation: with a code other
than 1000, the `isJoined` of the closure true and the attempt counter at
`k ≤ 4`, the handler registers one timer whose delay is
`min (1000 * 2 ^ k) 10000`, i.e. 1000, 2000, 4000, 8000 and 10000 ms. -/
theorem onclose_backoff_delay (env : Env) (code : Nat) (s : ChatState) (k : Nat)
    (hk : k ≤ 4) (hn : s.reconnectAttempts = k) (hcode : code ≠ 1000)
    (hj : env.isJoined = true) :
    (onclose env code s).timers =
        s.timers ++ [{ delay := min (1000 * 2 ^ k) 10000, env := env, pending := true }] ∧
      (onclose env code s).reconnectTimeoutRef = some s.timers.length ∧
      (List.range 5).map reconnectDelay = [1000, 2000, 4000, 8000, 10000] := by
  subst hn
  have hlt : s.reconnectAttempts < 5 := by omega
  refine ⟨?_, ?_, by decide⟩
  · simp [onclose, hj, hcode, hlt, maxReconnectAttempts, reconnectDelay]
  · simp [onclose, hj, hcode, hlt, maxReconnectAttempts]

/-- The branch condition of `ws.onclose` taken in isolation, in terms of the
`isJoined` of the closure: no timer and "Connection closed" exactly when the
code is 1000, or that flag is false, or the counter is at least 5; otherwise
exactly one pending timer is registered. -/
theorem onclose_gives_up_iff (env : Env) (code : Nat) (s : ChatState) :
    (((onclose env code s).timers = s.timers ∧
          (onclose env code s).connectionError = .str "Connection closed") ↔
        (code = 1000 ∨ env.isJoined = false ∨ 5 ≤ s.reconnectAttempts)) ∧
      ((code = 1000 ∨ env.isJoined = false ∨ 5 ≤ s.reconnectAttempts) ∨
        ∃ t : Timer, (onclose env code s).timers = s.timers ++ [t] ∧ t.pending = true ∧
          (onclose env code s).reconnectTimeoutRef = some s.timers.length) ∧
      (env.isJoined = false → (onclose env code s).timers = s.timers) := by
  by_cases hc : code = 1000
  · simp [onclose, hc]
  · cases hj : env.isJoined
    · simp [onclose, hc, hj]
    · by_cases hlt : s.reconnectAttempts < 5
      · have h5 : ¬ 5 ≤ s.reconnectAttempts := by omega
        simp [onclose, hc, hj, hlt, h5, maxReconnectAttempts]
      · have h5 : 5 ≤ s.reconnectAttempts := by omega
        simp [onclose, hc, hj, hlt, h5, maxReconnectAttempts]

/-! ## Incoming frames -/

/-- C7, as stated, fails: the frame `bobSaysNothing` has no recognized
`type`, carries a `username` field and a `message` field, and its username
"bob" is not the local username "alice"; yet on the socket of `joinedSession`
it leaves the state unchanged and no entry is appended, because the empty
message is falsy in `data.username && data.message`. -/
theorem onmessage_empty_message_not_appended :
    recognizedType bobSaysNothing = false ∧
      bobSaysNothing.prop "username" = some (.str "bob") ∧
      bobSaysNothing.prop "message" = some (.str "") ∧
      (JVal.str "bob").strictEqStr "alice" = false ∧
      joinedSession.sockets.map (fun k => k.env.username) = ["alice"] ∧
      step clock0 (.wsMessage 0 (some bobSaysNothing)) joinedSession = joinedSession ∧
      ¬ ∃ m : DisplayMessage,
        (step clock0 (.wsMessage 0 (some bobSaysNothing)) joinedSession).messages =
          joinedSession.messages ++ [m] := by
  refine ⟨rfl, rfl, rfl, rfl, by decide, rfl, ?_⟩
  rintro ⟨m, hm⟩
  have hlen := congrArg List.length hm
  rw [List.length_append, List.length_singleton] at hlen
  revert hlen
  decide

/-- C7, amended: for a frame that fails to parse, or whose `type` is none of
`message`, `join`, `leave`, `user_list`, `error`: when its `username` and
`message` are both truthy and the username is not the local username, exactly
one entry is appended, carrying that username, message and timestamp, with
`isOwn = false` and not system-styled; in every other case the state is
unchanged. -/
theorem onmessage_unrecognized_frame (env : Env) (amb : Ambient) (parsed : Option JVal)
    (s : ChatState) (h : ∀ data, parsed = some data → recognizedType data = false) :
    (∀ data, parsed = some data →
        (data.field "username").truthy = true → (data.field "message").truthy = true →
        data.field "username" ≠ .str env.username →
        ∃ m : DisplayMessage,
          onmessage env amb parsed s = { s with messages := s.messages ++ [m] } ∧
          m.username = data.field "username" ∧ m.message = data.field "message" ∧
          m.timestamp = data.field "timestamp" ∧ m.isOwn = some false ∧
          m.systemStyled = false) ∧
      ((∀ data, parsed = some data →
          ¬ ((data.field "username").truthy = true ∧ (data.field "message").truthy = true ∧
            data.field "username" ≠ .str env.username)) →
        onmessage env amb parsed s = s) := by
  cases parsed with
  | none => exact ⟨fun data hd => by simp at hd, fun _ => rfl⟩
  | some d =>
    have hrec := h d rfl
    cases hty : d.prop "type" with
    | none =>
      have hb : onmessageBody env amb d s = none := by
        unfold onmessageBody
        rw [hty]
        rfl
      have hu := (prop_eq_none_field hty "username").2
      refine ⟨?_, fun _ => ?_⟩
      · intro data hd hut
        cases hd
        simp [hu, JVal.truthy] at hut
      · show (onmessageBody env amb d s).getD s = s
        rw [hb]
        rfl
    | some ty =>
      have hb := onmessageBody_unrecognized env amb d s ty hty hrec
      refine ⟨?_, ?_⟩
      · intro data hd hut hmt hne
        cases hd
        have hs : (d.field "username").strictEqStr env.username = false :=
          (strictEqStr_eq_false_iff _ _).mpr hne
        refine ⟨{
          id := .clockPlusRandom amb.now amb.rnd
          username := d.field "username"
          message := d.field "message"
          timestamp := d.field "timestamp"
          isOwn := some false }, ?_, rfl, rfl, rfl, rfl, rfl⟩
        show (onmessageBody env amb d s).getD s = _
        rw [hb]
        simp [hut, hmt, hs]
      · intro hno
        have hno2 := hno d rfl
        show (onmessageBody env amb d s).getD s = s
        rw [hb]
        split
        · rename_i hcond
          simp only [Bool.and_eq_true, Bool.not_eq_true_eq_eq_false,
            strictEqStr_eq_false_iff] at hcond
          exact absurd ⟨hcond.1.1, hcond.1.2, hcond.2⟩ hno2
        · rfl

/-- Instance of the amended C7: an untyped frame from "bob" received by
"alice". -/
theorem onmessage_unrecognized_frame_witness :
    recognizedType (.obj [("username", .str "bob"), ("message", .str "hi")]) = false ∧
      ∃ m : DisplayMessage,
        onmessage ⟨false, "alice", "general"⟩ clock0
            (some (.obj [("username", .str "bob"), ("message", .str "hi")])) ChatState.init =
          { ChatState.init with messages := [m] } ∧
        m.isOwn = some false ∧ m.systemStyled = false :=
  ⟨rfl, by
    obtain ⟨m, h1, -, -, -, h5, h6⟩ :=
      (onmessage_unrecognized_frame ⟨false, "alice", "general"⟩ clock0
        (some (.obj [("username", .str "bob"), ("message", .str "hi")])) ChatState.init
        (fun data hd => by cases hd; rfl)).1 _ rfl rfl rfl
        ((strictEqStr_eq_false_iff _ _).mp rfl)
    exact ⟨m, h1, h5, h6⟩⟩

/-- C8: for every frame whose `type` is `message` and every local username,
the handler appends exactly one entry; its `isOwn` is the strict equality of
the frame's username with the local username and it is not system-styled, so
it is own exactly when the two usernames are equal.  Nothing but `messages`
changes, so the roster and `connectionError` are as before. -/
theorem onmessage_message_frame (env : Env) (amb : Ambient) (data : JVal) (s : ChatState)
    (h : data.prop "type" = some (.str "message")) :
    ∃ m : DisplayMessage,
      onmessage env amb (some data) s = { s with messages := s.messages ++ [m] } ∧
      m.username = data.field "username" ∧ m.message = data.field "message" ∧
      m.timestamp = data.field "timestamp" ∧
      m.isOwn = some ((data.field "username").strictEqStr env.username) ∧
      (data.field "username" = .str env.username → m.isOwn = some true) ∧
      (data.field "username" ≠ .str env.username → m.isOwn = some false) ∧
      m.systemStyled = false ∧
      (onmessage env amb (some data) s).onlineUsers = s.onlineUsers ∧
      (onmessage env amb (some data) s).connectionError = s.connectionError := by
  have hb := onmessageBody_message env amb data s h
  have hr : onmessage env amb (some data) s = (onmessageBody env amb data s).getD s := rfl
  refine ⟨{
    id := if (data.field "id").truthy then .value (data.field "id")
          else .clockPlusRandom amb.now amb.rnd
    username := data.field "username"
    message := data.field "message"
    timestamp := data.field "timestamp"
    isOwn := some ((data.field "username").strictEqStr env.username)
    room := data.field "room" }, ?_, rfl, rfl, rfl, rfl, ?_, ?_, rfl, ?_, ?_⟩
  · rw [hr, hb]
    rfl
  · intro he
    exact congrArg some ((strictEqStr_eq_true_iff _ _).mpr he)
  · intro hne
    exact congrArg some ((strictEqStr_eq_false_iff _ _).mpr hne)
  · rw [hr, hb]
    rfl
  · rw [hr, hb]
    rfl

/-- Instance of C8: the frame `bobSaysHi` received by "alice". -/
theorem onmessage_message_frame_witness :
    bobSaysHi.prop "type" = some (.str "message") ∧
      ∃ m : DisplayMessage,
        onmessage ⟨false, "alice", "general"⟩ clock0 (some bobSaysHi) ChatState.init =
          { ChatState.init with messages := [m] } ∧
        m.isOwn = some false ∧ m.systemStyled = false :=
  ⟨rfl, by
    obtain ⟨m, h1, -, -, -, h5, -, -, h8, -, -⟩ :=
      onmessage_message_frame ⟨false, "alice", "general"⟩ clock0 bobSaysHi ChatState.init rfl
    exact ⟨m, h1, h5, h8⟩⟩

/-! ## sendMessage -/

/-- C9: when the input text is empty or made of whitespace only, and also
when the session is not connected, `sendMessage` returns the state as it was:
no envelope is added to any socket and no cell changes. -/
theorem sendMessage_blank_or_disconnected (amb : Ambient) (s : ChatState)
    (h : (∀ c ∈ s.inputMessage.toList, isJSWhitespace c = true) ∨ s.isConnected = false) :
    sendMessage amb s = s := by
  rcases h with h | h
  · simp [sendMessage, jsTrim_of_all_whitespace _ h]
  · simp [sendMessage, h]

/-- Instance of C9: three blanks typed into a joined, connected session. -/
theorem sendMessage_blank_or_disconnected_witness :
    (∀ c ∈ ({ joinedSession with inputMessage := "   " } : ChatState).inputMessage.toList,
        isJSWhitespace c = true) ∧
      sendMessage clock0 { joinedSession with inputMessage := "   " } =
        { joinedSession with inputMessage := "   " } :=
  ⟨by decide,
    sendMessage_blank_or_disconnected clock0 { joinedSession with inputMessage := "   " }
      (Or.inl (by decide))⟩

/-- C6, as stated, fails: in `rejoinedSession` the text is not blank, the
session is connected and `send` raises; `connectionError` becomes "Failed to
send message" but the message list has gained no entry. -/
theorem sendMessage_send_throws_no_echo :
    jsTrim rejoinedSession.inputMessage ≠ "" ∧ rejoinedSession.isConnected = true ∧
      sendThrows rejoinedSession = true ∧
      (sendMessage clock0 rejoinedSession).connectionError = .str "Failed to send message" ∧
      (sendMessage clock0 rejoinedSession).messages.length = rejoinedSession.messages.length ∧
      ¬ ∃ m : DisplayMessage,
        (sendMessage clock0 rejoinedSession).messages = rejoinedSession.messages ++ [m] := by
  refine ⟨by decide, rfl, rfl, rfl, by decide, ?_⟩
  rintro ⟨m, hm⟩
  have hlen := congrArg List.length hm
  rw [List.length_append, List.length_singleton] at hlen
  revert hlen
  decide

/-- C6, amended: when the text is not blank, the session is connected and
`send` raises, `sendMessage` sets `connectionError` to "Failed to send
message" and changes nothing else: no entry is added to the message list and
the input text is kept. -/
theorem sendMessage_send_throws (amb : Ambient) (s : ChatState)
    (htext : jsTrim s.inputMessage ≠ "") (hc : s.isConnected = true)
    (ht : sendThrows s = true) :
    sendMessage amb s = { s with connectionError := .str "Failed to send message" } := by
  unfold sendThrows at ht
  unfold sendMessage
  cases hw : s.wsRef with
  | none => simp [hw] at ht
  | some i =>
    rw [hw] at ht
    cases hk : s.sockets[i]? with
    | none => simp [hk] at ht
    | some k =>
      simp only [hk, beq_iff_eq] at ht
      simp [htext, hc, wsSend, hk, ht]

/-- Instance of the amended C6 at `rejoinedSession`. -/
theorem sendMessage_send_throws_witness :
    (jsTrim rejoinedSession.inputMessage ≠ "" ∧ rejoinedSession.isConnected = true ∧
        sendThrows rejoinedSession = true) ∧
      sendMessage clock0 rejoinedSession =
        { rejoinedSession with connectionError := .str "Failed to send message" } :=
  ⟨⟨by decide, rfl, rfl⟩,
    sendMessage_send_throws clock0 rejoinedSession (by decide) rfl rfl⟩

/-! ## The message list -/

/-- C5, as stated, fails twice.  `leaveChat` is not the only callback that
shrinks the list: in `leftSession` the user is not joined and the list holds
two entries, and `joinChat` replaces it with the single welcome entry.  And
`leaveChat` does not always set the list to empty: in `rejoinedSession` the
session is connected and `send` raises, so `leaveChat` is aborted and the
three entries stay. -/
theorem joinChat_shrinks_leaveChat_aborts :
    (leftSession.isJoined = false ∧ leftSession.messages.length = 2 ∧
        (step clock0 .joinChat leftSession).messages.length = 1 ∧
        ¬ (leftSession.messages <+: (step clock0 .joinChat leftSession).messages)) ∧
      (rejoinedSession.isConnected = true ∧ sendThrows rejoinedSession = true ∧
        leaveChat clock0 rejoinedSession = none ∧
        (step clock0 .leaveChat rejoinedSession).messages.length = 3 ∧
        (step clock0 .leaveChat rejoinedSession).messages ≠ []) := by
  refine ⟨⟨rfl, by decide, by decide, ?_⟩, rfl, rfl, rfl, by decide, ?_⟩
  · intro hp
    have hlen := hp.length_le
    revert hlen
    decide
  · intro he
    have hlen := congrArg List.length he
    revert hlen
    decide

/-- C5, amended: for every state, every socket notification (open, frame,
close, error), every timer coming due, every edit of an input cell and every
`sendMessage` call, the message list before the step is a prefix of the list
after it.  The list is replaced only by `leaveChat` and by `joinChat`:
`leaveChat` sets it to empty, unless the session is connected and `send`
raises, in which case `leaveChat` is aborted and the state is unchanged;
`joinChat` does nothing when the username is blank and otherwise sets the
list to the single welcome entry. -/
theorem messages_append_only (amb : Ambient) (ev : Event) (s : ChatState) :
    match ev with
    | .joinChat =>
      if jsTrim s.username = "" then step amb ev s = s
      else (step amb ev s).messages = [{
        id := .value (.num amb.now)
        username := .str "System"
        message :=
          .str ("Welcome to the chat, " ++ s.username ++ "! Connecting via WebSocket...")
        timestamp := .num amb.later
        isSystem := some true }]
    | .leaveChat =>
      if (s.isConnected && sendThrows s) = true then
        leaveChat amb s = none ∧ step amb ev s = s
      else (step amb ev s).messages = []
    | _ => s.messages <+: (step amb ev s).messages := by
  cases ev with
  | wsOpen i =>
    show s.messages <+: (step amb (.wsOpen i) s).messages
    simp only [step]
    split
    · rw [onopen_messages]
    · exact List.prefix_refl _
  | wsMessage i parsed =>
    show s.messages <+: (step amb (.wsMessage i parsed) s).messages
    simp only [step]
    split
    · exact onmessage_messages_prefix _ _ _ _
    · exact List.prefix_refl _
  | wsClose i code =>
    show s.messages <+: (step amb (.wsClose i code) s).messages
    simp only [step]
    split
    · rw [onclose_messages]
    · exact List.prefix_refl _
  | wsError i =>
    show s.messages <+: (step amb (.wsError i) s).messages
    simp only [step]
    split
    · exact List.prefix_refl _
    · exact List.prefix_refl _
  | timerFire t =>
    show s.messages <+: (step amb (.timerFire t) s).messages
    simp only [step]
    split
    · split
      · unfold reconnectCallback
        rw [connectWebSocket_messages]
      · exact List.prefix_refl _
    · exact List.prefix_refl _
  | setUsername v => exact List.prefix_refl _
  | setInputMessage v => exact List.prefix_refl _
  | setRoom v => exact List.prefix_refl _
  | joinChat =>
    show if jsTrim s.username = "" then joinChat amb s = s else (joinChat amb s).messages = _
    by_cases hb : jsTrim s.username = ""
    · simp [joinChat, hb]
    · have hb2 : (jsTrim s.username == "") = false := by simpa using hb
      rw [if_neg hb]
      unfold joinChat
      simp only [hb2, Bool.false_eq_true, if_false]
  | sendMessage => exact sendMessage_messages_prefix amb s
  | leaveChat =>
    show if (s.isConnected && sendThrows s) = true then
        leaveChat amb s = none ∧ (leaveChat amb s).getD s = s
      else ((leaveChat amb s).getD s).messages = []
    have hiff := leaveChat_eq_none_iff amb s
    cases hl : leaveChat amb s with
    | none =>
      rw [if_pos (hiff.mp hl)]
      exact ⟨rfl, rfl⟩
    | some t =>
      have hne : ¬ (s.isConnected && sendThrows s) = true := by
        intro hc
        rw [hiff.mpr hc] at hl
        cases hl
      rw [if_neg hne]
      exact (leaveChat_resets amb s t hl).2.2.1

/-! ## joinChat in a joined session -/

/-- C10, as stated, fails: `joinChat` is not a no-op in a joined session.
In `chattingSession` it drops the received message and leaves only the
welcome entry; in `connectingSession`, whose socket has not opened yet, it
creates a second socket beside the first, both still connecting. -/
theorem joinChat_when_joined_not_noop :
    (chattingSession.isJoined = true ∧ chattingSession.messages.length = 2 ∧
        (joinChat clock0 chattingSession).messages.length = 1) ∧
      (connectingSession.isJoined = true ∧ connectingSession.sockets.length = 1 ∧
        (joinChat clock0 connectingSession).sockets.map (fun k => k.readyState) =
          [.CONNECTING, .CONNECTING] ∧
        (joinChat clock0 connectingSession).wsRef = some 1) := by
  refine ⟨⟨rfl, by decide, by decide⟩, rfl, by decide, by decide, by decide⟩

/-- C10, amended: in a joined session `joinChat` is a no-op when the
username is blank.  Otherwise it keeps the user joined and replaces the
message list with the single welcome entry; when the current socket is open
it changes nothing else and creates no socket, and when it is not open (and
the constructor does not raise) it creates one more socket, in state
`CONNECTING`, and makes it the current one, the earlier sockets being kept as
they are. -/
theorem joinChat_when_joined (amb : Ambient) (s : ChatState) (hj : s.isJoined = true) :
    (jsTrim s.username = "" → joinChat amb s = s) ∧
      (jsTrim s.username ≠ "" →
        (joinChat amb s).isJoined = true ∧
        (∃ m : DisplayMessage, (joinChat amb s).messages = [m] ∧ m.isSystem = some true ∧
          m.message =
            .str ("Welcome to the chat, " ++ s.username ++ "! Connecting via WebSocket...")) ∧
        (wsRefIsOpen s = true →
          joinChat amb s = { s with messages := (joinChat amb s).messages }) ∧
        (wsRefIsOpen s = false → amb.ctorThrows = false →
          (joinChat amb s).sockets =
              s.sockets ++ [{ readyState := .CONNECTING,
                              env := ⟨true, s.username, s.room⟩, sent := [] }] ∧
            (joinChat amb s).wsRef = some s.sockets.length)) := by
  have hs : ({ s with isJoined := true } : ChatState) = s := by
    cases s
    simp only at hj
    subst hj
    rfl
  refine ⟨fun hb => by simp [joinChat, hb], fun hnb => ?_⟩
  have hnb2 : (jsTrim s.username == "") = false := by simpa using hnb
  unfold joinChat
  rw [hs, hj]
  simp only [hnb2, Bool.false_eq_true, if_false]
  refine ⟨?_, ⟨_, rfl, rfl, rfl⟩, ?_, ?_⟩
  · unfold connectWebSocket
    split
    · exact hj
    · split <;> exact hj
  · intro ho
    simp [connectWebSocket, ho, hj]
  · intro ho hc
    simp [connectWebSocket, ho, hc]

/-- Instance of the amended C10 at `connectingSession`. -/
theorem joinChat_when_joined_witness :
    (connectingSession.isJoined = true ∧ jsTrim connectingSession.username ≠ "" ∧
        wsRefIsOpen connectingSession = false ∧ clock0.ctorThrows = false) ∧
      (joinChat clock0 connectingSession).isJoined = true ∧
      (joinChat clock0 connectingSession).wsRef = some connectingSession.sockets.length :=
  ⟨⟨rfl, by decide, rfl, rfl⟩,
    ((joinChat_when_joined clock0 connectingSession rfl).2 (by decide)).1,
    (((joinChat_when_joined clock0 connectingSession rfl).2 (by decide)).2.2.2 rfl rfl).2⟩

/-! ## The reconnect run and leaveChat, evaluated after a join -/

/-- C1 on the code: in `joinedSession` the user is joined, yet for every
attempt counter `k` and every close code the close of its socket registers no
timer, so no reconnect delay is ever in force; `connectionError` becomes
"Connection closed".  The handlers of the socket hold `isJoined = false`,
the value of the render in which `joinChat` ran. -/
theorem close_after_join_registers_no_timer (k code : Nat) :
    ({ joinedSession with reconnectAttempts := k } : ChatState).isJoined = true ∧
      (step clock0 (.wsClose 0 code)
          { joinedSession with reconnectAttempts := k }).timers = [] ∧
      (step clock0 (.wsClose 0 code)
          { joinedSession with reconnectAttempts := k }).reconnectTimeoutRef = none ∧
      (step clock0 (.wsClose 0 code)
          { joinedSession with reconnectAttempts := k }).connectionError =
        .str "Connection closed" := by
  have hstep : step clock0 (.wsClose 0 code) { joinedSession with reconnectAttempts := k } =
      onclose ⟨false, "alice", "general"⟩ code
        { joinedSession with
          reconnectAttempts := k
          sockets := setReadyState 0 .CLOSED joinedSession.sockets } := rfl
  rw [hstep]
  refine ⟨rfl, ?_, ?_, ?_⟩ <;> simp [onclose] <;> rfl

/-- C2 on the code: in `joinedSession` the close code 1006 is not 1000, the
user is joined and the attempt counter is 0, so none of the three conditions
holds; yet the close handler registers no timer and sets `connectionError`
to "Connection closed".  The equivalence of the claim fails at this input, and
so does its "exactly one reconnect timer in every other case". -/
theorem close_after_join_breaks_iff :
    ¬ ((((step clock0 (.wsClose 0 1006) joinedSession).timers = joinedSession.timers ∧
          (step clock0 (.wsClose 0 1006) joinedSession).connectionError =
            .str "Connection closed") ↔
        ((1006 : Nat) = 1000 ∨ joinedSession.isJoined = false ∨
          5 ≤ joinedSession.reconnectAttempts))) ∧
      ¬ ∃ t : Timer,
        (step clock0 (.wsClose 0 1006) joinedSession).timers = joinedSession.timers ++ [t] := by
  refine ⟨?_, ?_⟩
  · intro hiff
    have h := hiff.mp ⟨rfl, rfl⟩
    revert h
    decide
  · rintro ⟨t, ht⟩
    have hlen := congrArg List.length ht
    rw [List.length_append, List.length_singleton] at hlen
    revert hlen
    decide

/-- The converse mismatch, reached only when `joinChat` runs in a joined
render: the second socket of `connectingSession` holds `isJoined = true`, so
after `leaveChat` its abnormal close still registers a timer, of 1000 ms,
while the `isJoined` cell is false. -/
theorem timer_registered_after_leaveChat :
    (run clock0 [.joinChat, .leaveChat, .wsClose 1 1006] connectingSession).isJoined = false ∧
      (run clock0 [.joinChat, .leaveChat, .wsClose 1 1006] connectingSession).timers.map
          (fun t => (t.delay, t.pending)) = [(1000, true)] := by
  refine ⟨rfl, by decide⟩

/-- C3 on the code: `joinedSession` is joined and connected with the attempt
counter at 0, yet the first abnormal close (code 1006) of its socket registers
no timer and sets `connectionError` to "Connection closed".  The handlers
of the socket were created by the `connectWebSocket` that `joinChat` called,
whose closure holds `isJoined = false`; for the same reason no `join` envelope
was sent when the socket opened. -/
theorem abnormal_close_after_join_not_retried :
    (joinedSession.isJoined = true ∧ joinedSession.isConnected = true ∧
        joinedSession.reconnectAttempts = 0 ∧
        joinedSession.sockets.map (fun k => (k.env.isJoined, k.sent.length)) = [(false, 0)]) ∧
      (step clock0 (.wsClose 0 1006) joinedSession).timers.length = 0 ∧
      (step clock0 (.wsClose 0 1006) joinedSession).reconnectTimeoutRef = none ∧
      (step clock0 (.wsClose 0 1006) joinedSession).connectionError =
        .str "Connection closed" ∧
      (step clock0 (.wsClose 0 1006) joinedSession).isConnected = false := by
  refine ⟨⟨rfl, rfl, rfl, by decide⟩, by decide, rfl, rfl, rfl⟩

/-- C4 on the code: in `connectingSession` (joined, socket not yet open)
`leaveChat` resets `isJoined` and `isConnected` but leaves `isConnecting`
true, and the socket is neither closed nor dropped. -/
theorem leaveChat_while_connecting :
    (connectingSession.isJoined = true ∧ connectingSession.isConnecting = true) ∧
      (leaveChat clock0 connectingSession).map
          (fun t => (t.isJoined, t.isConnected, t.isConnecting,
            t.sockets.map (fun k => k.readyState), t.wsRef)) =
        some (false, false, true, [.CONNECTING], some 0) := by
  refine ⟨⟨rfl, rfl⟩, by decide⟩

end ChatApp
